import Mathlib

/-!
Shallow embedding of the trip/weather backend
(`src/backend/app`: services, repositories and models), together with
theorems checking the specification's claims against it.

Conventions of the embedding:
* calendar dates are day numbers (`Int`); timestamps are seconds (`Int`);
* Python `float` readings (temperature, wind speed) are `ℚ`;
* the relational tables are `List`s of records; SQL `first()` is `List.find?`;
* Python `%` on a positive modulus agrees with Lean's `Int` `%` (both
  return a value in `[0, modulus)`), so it is embedded as `%` directly;
* fallible operations return `Except ApiError`;
* `datetime.utcnow()` is an explicit `now : Int` argument threaded into
  every operation that reads the clock;
* Python's built-in string `hash` is an explicit parameter
  `hashFn : String → Int`: its value is fixed within one interpreter
  process but varies across processes (`PYTHONHASHSEED` randomisation).
-/

namespace TripApp

/-- Domain errors surfaced by the services (`fastapi.HTTPException` in the
source: 404 = `notFound`, 400/422 = `invalidInput`). -/
inductive ApiError where
  | notFound
  | invalidInput
  deriving DecidableEq, Repr

/-! ## Trip data model (`app/models/tables.py`, class `Trip`) -/

/-- `Trip` table row (`app/models/tables.py`). -/
structure Trip where
  id : Nat
  name : String
  destination : String
  start_date : Int
  end_date : Int
  notes : Option String
  created_at : Int
  updated_at : Int
  deriving DecidableEq, Repr

/-- `TripUpdate` request model (`app/models/request.py`): every field is
optional; an absent field (pydantic "unset") is `none`.  For `notes` an
explicitly supplied JSON `null` is meaningful (it clears the notes), so the
supplied value is itself an `Option`.  Explicit JSON `null`s for the other
four fields are not modelled: in the source they would put `None` into a
non-nullable column and crash response serialisation, a path no claim
touches. -/
structure TripUpdate where
  name : Option String := none
  destination : Option String := none
  start_date : Option Int := none
  end_date : Option Int := none
  notes : Option (Option String) := none
  deriving DecidableEq, Repr

/-- Pydantic validation of a `TripUpdate` payload
(`app/models/request.py`, field constraints and
`TripUpdate.validate_dates_if_provided`): length bounds on the string
fields, and the date-range check, which fires only when BOTH `start_date`
and `end_date` are present in the payload (otherwise `info.data` holds the
`None` default and the validator returns without checking). -/
def tripUpdateValid (u : TripUpdate) : Bool :=
  (match u.name with | some s => 1 ≤ s.length && s.length ≤ 100 | none => true) &&
  (match u.destination with | some s => 1 ≤ s.length | none => true) &&
  (match u.notes with | some (some s) => s.length ≤ 500 | _ => true) &&
  (match u.start_date, u.end_date with
   | some s, some e => s < e
   | _, _ => true)

/-- `updates.model_dump(exclude_unset=True)` followed by the `setattr`
loop in `TripService.update_trip`: copy exactly the supplied fields onto
the existing row.  No validator runs here (SQLModel `table=True` models do
not validate on attribute assignment). -/
def applyUpdates (t : Trip) (u : TripUpdate) : Trip :=
  { t with
    name := u.name.getD t.name
    destination := u.destination.getD t.destination
    start_date := u.start_date.getD t.start_date
    end_date := u.end_date.getD t.end_date
    notes := u.notes.getD t.notes }

/-- Replace the first row with the given id (the ORM persists the mutated
row in place; `TripRepository.update`). -/
def replaceTripById : List Trip → Nat → Trip → List Trip
  | [], _, _ => []
  | x :: xs, i, t => if x.id = i then t :: xs else x :: replaceTripById xs i t

/-- `TripService.update_trip` (`app/services/trip_service.py` lines
55-74): look up the trip (404 if absent), apply the supplied fields,
refresh `updated_at`, persist.  Returns the new table state and the
merged record. -/
def update_trip (store : List Trip) (trip_id : Nat) (updates : TripUpdate)
    (now : Int) : Except ApiError (List Trip × Trip) :=
  match store.find? (fun t => t.id == trip_id) with
  | none => .error .notFound
  | some existing =>
    let merged := { applyUpdates existing updates with updated_at := now }
    .ok (replaceTripById store trip_id merged, merged)

/-- The PATCH endpoint as a whole: pydantic parses/validates the
`TripUpdate` payload (a validation failure is an `invalidInput` response,
the service is never entered), then `TripService.update_trip` runs. -/
def update_trip_endpoint (store : List Trip) (trip_id : Nat)
    (updates : TripUpdate) (now : Int) : Except ApiError (List Trip × Trip) :=
  if tripUpdateValid updates then update_trip store trip_id updates now
  else .error .invalidInput

/-! ## Weather data model (`app/models/tables.py`, `app/models/response.py`) -/

/-- Python `str.lower()` (ASCII model): lowercase every character. -/
def pyLower (s : String) : String := ⟨s.data.map Char.toLower⟩

/-- Python `str.strip()` with no argument: remove leading and trailing
whitespace. -/
def pyStrip (s : String) : String :=
  ⟨((s.data.dropWhile Char.isWhitespace).reverse.dropWhile
      Char.isWhitespace).reverse⟩

/-- `WeatherCache` table row (`app/models/tables.py`). -/
@[ext]
structure WeatherCache where
  location : String
  temperature : ℚ
  condition : String
  humidity : Int
  wind_speed : ℚ
  updated_at : Int
  cached_at : Int
  deriving DecidableEq, Repr

/-- `WeatherResponse` (`app/models/response.py`). -/
@[ext]
structure WeatherResponse where
  location : String
  temperature : ℚ
  condition : String
  humidity : Int
  wind_speed : ℚ
  updated_at : Int
  deriving DecidableEq, Repr

/-- `WeatherCache.is_expired` (`app/models/tables.py` lines 52-55):
age strictly greater than 1800 seconds (30 minutes). -/
def is_expired (now : Int) (w : WeatherCache) : Bool :=
  now - w.cached_at > 1800

/-- `MockWeatherResponse.generate_mock_weather`
(`app/models/response.py` lines 54-67): index `hash(location.lower()) % 100`,
then arithmetic on the index.  `hashFn` stands for the interpreter's
built-in string hash. -/
def generate_mock_weather (hashFn : String → Int) (location : String)
    (now : Int) : WeatherResponse :=
  let location_hash : Int := hashFn (pyLower location) % 100
  { location := location
    temperature := ((15 + location_hash % 25 : Int) : ℚ)
    condition := ["Sunny", "Partly Cloudy", "Cloudy", "Rainy"].getD
      (location_hash % 4).toNat ""
    humidity := 40 + location_hash % 50
    wind_speed := ((5 + location_hash % 20 : Int) : ℚ)
    updated_at := now }

/-! ## Weather repository (`app/repositories/weather_repository.py`) -/

/-- Delete the first row with the given location (`session.delete` of the
row returned by `first()`). -/
def eraseFirstLoc : List WeatherCache → String → List WeatherCache
  | [], _ => []
  | x :: xs, l => if x.location = l then xs else x :: eraseFirstLoc xs l

/-- `WeatherRepository.get_cached_weather` (lines 18-33): select the first
row for the location; absent → `none`; expired → delete it and return
`none`; otherwise return it.  Result is the returned value paired with the
table state after the call. -/
def get_cached_weather (s : List WeatherCache) (location : String)
    (now : Int) : Option WeatherCache × List WeatherCache :=
  match s.find? (fun w => w.location == location) with
  | none => (none, s)
  | some w =>
    if is_expired now w then (none, eraseFirstLoc s location)
    else (some w, s)

/-- Overwrite the fields of the first row with the given location (the ORM
mutation of `existing_cache` in `store_weather_cache`). -/
def overwriteFirstLoc : List WeatherCache → String → WeatherCache → List WeatherCache
  | [], _, _ => []
  | x :: xs, l, e => if x.location = l then e :: xs else x :: overwriteFirstLoc xs l e

/-- `WeatherRepository.store_weather_cache` (lines 35-58): re-read via
`get_cached_weather` (which may lazily delete an expired row); if a valid
row exists, overwrite its weather fields and reset `cached_at` to now;
otherwise insert the new row as given.  Returns the stored row and the new
table state. -/
def store_weather_cache (s : List WeatherCache) (weather_cache : WeatherCache)
    (now : Int) : WeatherCache × List WeatherCache :=
  match get_cached_weather s weather_cache.location now with
  | (some existing, s') =>
    let updated := { existing with
      temperature := weather_cache.temperature
      condition := weather_cache.condition
      humidity := weather_cache.humidity
      wind_speed := weather_cache.wind_speed
      updated_at := weather_cache.updated_at
      cached_at := now }
    (updated, overwriteFirstLoc s' weather_cache.location updated)
  | (none, s') => (weather_cache, s' ++ [weather_cache])

/-- `WeatherRepository.cleanup_expired_cache` (lines 60-74): scan all
rows, delete every expired one, return the count deleted together with the
new table state. -/
def cleanup_expired_cache (s : List WeatherCache) (now : Int) :
    Nat × List WeatherCache :=
  match s with
  | [] => (0, [])
  | w :: ws =>
    let r := cleanup_expired_cache ws now
    if is_expired now w then (r.1 + 1, r.2) else (r.1, w :: r.2)

/-- `WeatherRepository.clear_location_cache` (lines 76-85): delete the
first row for the location if present; returns whether a row was found. -/
def clear_location_cache (s : List WeatherCache) (location : String) :
    Bool × List WeatherCache :=
  match s.find? (fun w => w.location == location) with
  | none => (false, s)
  | some _ => (true, eraseFirstLoc s location)

/-! ## Weather provider client (`app/models/request.py`,
`app/services/weather_service.py` `_fetch_weather_from_api`) -/

/-- Python `round(q, 1)` idealised on rationals: round `q * 10` to the
nearest integer, ties to even, divide by 10. -/
def roundHalfEven (q : ℚ) : Int :=
  let f := ⌊q⌋
  if q - f < 1/2 then f
  else if q - f > 1/2 then f + 1
  else if f % 2 = 0 then f else f + 1

/-- `WeatherAPIRequest.to_kmh` (`app/models/request.py` lines 63-65):
`round(ms_speed * 3.6, 1)`. -/
def to_kmh (ms_speed : ℚ) : ℚ :=
  (roundHalfEven (ms_speed * 3.6 * 10) : ℚ) / 10

/-- One step of Python `str.title()`: the boolean records whether the
previous character was alphabetic. -/
def pyTitleGo : Bool → List Char → List Char
  | _, [] => []
  | prevAlpha, c :: cs =>
    if c.isAlpha then
      (if prevAlpha then c.toLower else c.toUpper) :: pyTitleGo true cs
    else c :: pyTitleGo false cs

/-- Python `str.title()` (ASCII model): uppercase each letter that starts
an alphabetic run, lowercase the rest. -/
def pyTitle (s : String) : String := ⟨pyTitleGo false s.data⟩

/-- The parsed provider payload (`WeatherAPIRequest`,
`app/models/request.py`): the entries of the `main` and `wind` dicts and
the `description` of each element of the `weather` array, plus the
location `name`.  A `none` stands for a missing dict key. -/
structure WeatherAPIRequest where
  main_temp : Option ℚ
  main_humidity : Option Int
  weather_descriptions : List String
  wind_speed : Option ℚ
  name : String
  deriving DecidableEq, Repr

/-- The payload-mapping tail of `WeatherService._fetch_weather_from_api`
(`app/services/weather_service.py` lines 105-120): build the
`WeatherResponse` from the parsed payload; a missing `main["temp"]`,
`main["humidity"]` or `weather[0]` raises (`KeyError`/`IndexError`,
re-raised as a 503), while a missing `wind["speed"]` defaults to 0 via
`wind.get("speed", 0)`. -/
def fetch_map (req : WeatherAPIRequest) (now : Int) :
    Except ApiError WeatherResponse :=
  match req.main_temp, req.main_humidity, req.weather_descriptions.head? with
  | some temp, some humidity, some description =>
    .ok { location := req.name
          temperature := temp
          condition := pyTitle description
          humidity := humidity
          wind_speed := to_kmh (req.wind_speed.getD 0)
          updated_at := now }
  | _, _, _ => .error .invalidInput

/-! ## Weather service (`app/services/weather_service.py`,
`get_weather_for_location`) -/

/-- Outcome of one call to `_fetch_weather_from_api` as seen by
`get_weather_for_location`: either some exception was raised (missing API
key `ValueError`, timeout/404/401/other `HTTPException`, malformed
payload, ...) or a `WeatherResponse` was produced. -/
inductive FetchOutcome where
  | failure
  | success (resp : WeatherResponse)
  deriving DecidableEq, Repr

/-- The `WeatherResponse(...)` built from a cache row in the hit branch of
`get_weather_for_location` (source lines 36-44). -/
def response_of_cache (cached : WeatherCache) : WeatherResponse :=
  { location := cached.location
    temperature := cached.temperature
    condition := cached.condition
    humidity := cached.humidity
    wind_speed := cached.wind_speed
    updated_at := cached.updated_at }

/-- The `weather_response` local of `get_weather_for_location` (source
lines 47-51): the provider's response, or the mock on any exception. -/
def resolve_weather (hashFn : String → Int) (location : String)
    (fetch : FetchOutcome) (now : Int) : WeatherResponse :=
  match fetch with
  | .success r => r
  | .failure => generate_mock_weather hashFn location now

/-- The `weather_cache` local of `get_weather_for_location` (source lines
54-62): the response as a cache row with `cached_at = now`. -/
def snapshot_of (r : WeatherResponse) (cached_at : Int) : WeatherCache :=
  { location := r.location
    temperature := r.temperature
    condition := r.condition
    humidity := r.humidity
    wind_speed := r.wind_speed
    updated_at := r.updated_at
    cached_at := cached_at }

/-- `WeatherService.get_weather_for_location`
(`app/services/weather_service.py` lines 27-66).  Reject empty/whitespace
location; strip; cache-first read; on a hit return the cached fields
directly; on a miss take the provider outcome, falling back to
`generate_mock_weather` on any exception (`except Exception`), write the
snapshot through `store_weather_cache` with `cached_at = now`, and return
it.  The result carries the response, the table state after the call, and
whether the miss path ran (provider attempted and cache written). -/
def get_weather_for_location (hashFn : String → Int)
    (s : List WeatherCache) (location : String) (fetch : FetchOutcome)
    (now : Int) :
    Except ApiError (WeatherResponse × List WeatherCache × Bool) :=
  if pyStrip location = "" then .error .invalidInput
  else
    let loc := pyStrip location
    match get_cached_weather s loc now with
    | (some cached, s₁) => .ok (response_of_cache cached, s₁, false)
    | (none, s₁) =>
      let weather_response := resolve_weather hashFn loc fetch now
      .ok (weather_response,
           (store_weather_cache s₁ (snapshot_of weather_response now) now).2,
           true)

/-- The cache-store invariant: at most one row per location. -/
def AtMostOne (s : List WeatherCache) : Prop :=
  s.Pairwise (fun a b => a.location ≠ b.location)

/-! ## Concrete fixtures used by witness theorems -/

/-- A stored trip used to instantiate the trip theorems. -/
def sampleTrip : Trip :=
  { id := 1, name := "Summer", destination := "Paris", start_date := 5,
    end_date := 10, notes := none, created_at := 0, updated_at := 0 }

/-- A cache row 1000 seconds old at time 2000 (not expired). -/
def parisFresh : WeatherCache :=
  { location := "Paris", temperature := 18, condition := "Rainy",
    humidity := 43, wind_speed := 8, updated_at := 1000, cached_at := 1000 }

/-- A cache row 2000 seconds old at time 2000 (expired). -/
def tokyoStale : WeatherCache :=
  { location := "Tokyo", temperature := 20, condition := "Sunny",
    humidity := 50, wind_speed := 9, updated_at := 0, cached_at := 0 }

/-- A well-formed provider payload. -/
def sampleReq : WeatherAPIRequest :=
  { main_temp := some 20, main_humidity := some 60,
    weather_descriptions := ["clear sky"], wind_speed := some (5 / 2),
    name := "Paris" }

/-- The snapshot `fetch_map` produces from `sampleReq` at time 50
(2.5 m/s · 3.6 = 9 km/h). -/
def sampleResp : WeatherResponse :=
  { location := "Paris", temperature := 20, condition := "Clear Sky",
    humidity := 60, wind_speed := 9, updated_at := 50 }

/-- The mock snapshot for "Paris" at time 0 under the process hash
`fun _ => 3` (index 3: 18 °C, "Rainy", 43 %, 8 km/h). -/
def parisMockResp : WeatherResponse :=
  { location := "Paris", temperature := 18, condition := "Rainy",
    humidity := 43, wind_speed := 8, updated_at := 0 }

/-- `parisMockResp` as the cache row written at time 0. -/
def parisMockRow : WeatherCache :=
  { location := "Paris", temperature := 18, condition := "Rainy",
    humidity := 43, wind_speed := 8, updated_at := 0, cached_at := 0 }

/-- A provider response whose reported name differs from the requested
location string "Paris". -/
def provResp : WeatherResponse :=
  { location := "Paris, France", temperature := 20, condition := "Cloudy",
    humidity := 50, wind_speed := 9, updated_at := 77 }

/-! ## Structural lemmas about the cache-store operations -/

theorem eraseFirstLoc_sublist (s : List WeatherCache) (l : String) :
    List.Sublist (eraseFirstLoc s l) s := by
  induction s with
  | nil => exact List.Sublist.refl []
  | cons x xs ih =>
    unfold eraseFirstLoc
    split
    · exact List.sublist_cons_self x xs
    · exact ih.cons₂ x

theorem eraseFirstLoc_no_loc {s : List WeatherCache} (l : String)
    (hinv : AtMostOne s) : ∀ w ∈ eraseFirstLoc s l, w.location ≠ l := by
  induction s with
  | nil => intro w hw; simp [eraseFirstLoc] at hw
  | cons x xs ih =>
    have hp := List.pairwise_cons.mp hinv
    intro w hw
    unfold eraseFirstLoc at hw
    by_cases hc : x.location = l
    · rw [if_pos hc] at hw
      intro hwl
      exact hp.1 w hw (hc.trans hwl.symm)
    · rw [if_neg hc] at hw
      rcases List.mem_cons.mp hw with h | h
      · rw [h]; exact hc
      · exact ih hp.2 w h

theorem overwriteFirstLoc_length (s : List WeatherCache) (l : String)
    (e : WeatherCache) : (overwriteFirstLoc s l e).length = s.length := by
  induction s with
  | nil => rfl
  | cons x xs ih =>
    unfold overwriteFirstLoc
    split
    · simp
    · simp [ih]

theorem overwriteFirstLoc_mem {s : List WeatherCache} {l : String}
    {e w : WeatherCache} (hw : w ∈ overwriteFirstLoc s l e) : w ∈ s ∨ w = e := by
  induction s with
  | nil => simp [overwriteFirstLoc] at hw
  | cons x xs ih =>
    unfold overwriteFirstLoc at hw
    split at hw
    · rcases List.mem_cons.mp hw with h | h
      · right; exact h
      · left; exact List.mem_cons_of_mem x h
    · rcases List.mem_cons.mp hw with h | h
      · left; rw [h]; exact List.mem_cons_self x xs
      · rcases ih h with h' | h'
        · left; exact List.mem_cons_of_mem x h'
        · right; exact h'

theorem overwriteFirstLoc_pairwise {s : List WeatherCache} {l : String}
    {e : WeatherCache} (hinv : AtMostOne s) (he : e.location = l) :
    AtMostOne (overwriteFirstLoc s l e) := by
  induction s with
  | nil => exact hinv
  | cons x xs ih =>
    have hp := List.pairwise_cons.mp hinv
    unfold overwriteFirstLoc
    split
    · rename_i hc
      refine List.pairwise_cons.mpr ⟨fun w hw => ?_, hp.2⟩
      rw [he, ← hc]
      exact hp.1 w hw
    · rename_i hc
      refine List.pairwise_cons.mpr ⟨fun w hw => ?_, ih hp.2⟩
      rcases overwriteFirstLoc_mem hw with h | h
      · exact hp.1 w h
      · rw [h, he]
        exact hc

theorem overwriteFirstLoc_find {s : List WeatherCache} {l : String}
    {e x : WeatherCache} (hf : s.find? (fun w => w.location == l) = some x)
    (he : e.location = l) :
    (overwriteFirstLoc s l e).find? (fun w => w.location == l) = some e := by
  induction s with
  | nil => simp at hf
  | cons y ys ih =>
    unfold overwriteFirstLoc
    by_cases hc : y.location = l
    · rw [if_pos hc]
      exact List.find?_cons_of_pos _ (by simp [he])
    · rw [if_neg hc]
      rw [List.find?_cons_of_neg _ (by simp [hc])]
      rw [List.find?_cons_of_neg _ (by simp [hc])] at hf
      exact ih hf

theorem find_loc_of_mem {s : List WeatherCache} {e : WeatherCache}
    (hinv : AtMostOne s) (he : e ∈ s) :
    s.find? (fun w => w.location == e.location) = some e := by
  induction s with
  | nil => simp at he
  | cons x xs ih =>
    have hp := List.pairwise_cons.mp hinv
    rcases List.mem_cons.mp he with h | h
    · rw [h]
      exact List.find?_cons_of_pos _ (by simp)
    · rw [List.find?_cons_of_neg _ (by simp; exact hp.1 e h)]
      exact ih hp.2 h

theorem gcw_find_none {s : List WeatherCache} {l : String} {now : Int}
    (hf : s.find? (fun w => w.location == l) = none) :
    get_cached_weather s l now = (none, s) := by
  unfold get_cached_weather
  simp only [hf]

theorem gcw_find_expired {s : List WeatherCache} {l : String} {now : Int}
    {w : WeatherCache} (hf : s.find? (fun x => x.location == l) = some w)
    (hex : 1800 < now - w.cached_at) :
    get_cached_weather s l now = (none, eraseFirstLoc s l) := by
  unfold get_cached_weather
  simp only [hf]
  rw [if_pos]
  simpa [is_expired] using hex

theorem gcw_find_fresh {s : List WeatherCache} {l : String} {now : Int}
    {w : WeatherCache} (hf : s.find? (fun x => x.location == l) = some w)
    (hfr : now - w.cached_at ≤ 1800) :
    get_cached_weather s l now = (some w, s) := by
  unfold get_cached_weather
  simp only [hf]
  rw [if_neg]
  simp [is_expired]
  omega

theorem gcw_sublist (s : List WeatherCache) (l : String) (now : Int) :
    List.Sublist (get_cached_weather s l now).2 s := by
  unfold get_cached_weather
  split
  · exact List.Sublist.refl s
  · split
    · exact eraseFirstLoc_sublist s l
    · exact List.Sublist.refl s

theorem gcw_none_no_loc {s : List WeatherCache} {l : String} {now : Int}
    {s' : List WeatherCache} (hinv : AtMostOne s)
    (hg : get_cached_weather s l now = (none, s')) :
    ∀ w ∈ s', w.location ≠ l := by
  cases hf : s.find? (fun w => w.location == l) with
  | none =>
    have hs : s = s' := congrArg Prod.snd ((gcw_find_none hf).symm.trans hg)
    rw [← hs]
    intro w hw hwl
    exact List.find?_eq_none.mp hf w hw (by simp [hwl])
  | some w =>
    by_cases hex : 1800 < now - w.cached_at
    · have hs : eraseFirstLoc s l = s' :=
        congrArg Prod.snd ((gcw_find_expired hf hex).symm.trans hg)
      rw [← hs]
      exact eraseFirstLoc_no_loc l hinv
    · have := congrArg Prod.fst ((gcw_find_fresh hf (by omega)).symm.trans hg)
      simp at this

/-- The row written by the overwrite branch of `store_weather_cache`. -/
def overwritten (e wc : WeatherCache) (now : Int) : WeatherCache :=
  { e with
    temperature := wc.temperature
    condition := wc.condition
    humidity := wc.humidity
    wind_speed := wc.wind_speed
    updated_at := wc.updated_at
    cached_at := now }

theorem store_absent {s s' : List WeatherCache} {wc : WeatherCache} {now : Int}
    (hg : get_cached_weather s wc.location now = (none, s')) :
    store_weather_cache s wc now = (wc, s' ++ [wc]) := by
  unfold store_weather_cache
  rw [hg]

theorem store_found {s s' : List WeatherCache} {wc e : WeatherCache} {now : Int}
    (hg : get_cached_weather s wc.location now = (some e, s')) :
    store_weather_cache s wc now =
      (overwritten e wc now,
       overwriteFirstLoc s' wc.location (overwritten e wc now)) := by
  unfold store_weather_cache
  rw [hg]
  rfl

/-- Storing a snapshot: the table afterwards has a row for
`wc.location`, findable by `find?`, carrying `wc`'s weather fields; its
`cached_at` is `now` (overwrite branch) or `wc.cached_at` (insert
branch). -/
theorem store_find_self (s : List WeatherCache) (wc : WeatherCache) (now : Int)
    (hinv : AtMostOne s) :
    (store_weather_cache s wc now).2.find? (fun w => w.location == wc.location) =
      some (store_weather_cache s wc now).1 ∧
    (store_weather_cache s wc now).1.location = wc.location ∧
    (store_weather_cache s wc now).1.temperature = wc.temperature ∧
    (store_weather_cache s wc now).1.condition = wc.condition ∧
    (store_weather_cache s wc now).1.humidity = wc.humidity ∧
    (store_weather_cache s wc now).1.wind_speed = wc.wind_speed ∧
    (store_weather_cache s wc now).1.updated_at = wc.updated_at ∧
    ((store_weather_cache s wc now).1.cached_at = now ∨
      (store_weather_cache s wc now).1.cached_at = wc.cached_at) := by
  cases hf : s.find? (fun w => w.location == wc.location) with
  | none =>
    rw [store_absent (gcw_find_none hf)]
    dsimp only
    refine ⟨?_, rfl, rfl, rfl, rfl, rfl, rfl, Or.inr rfl⟩
    rw [List.find?_append, hf]
    simp
  | some e =>
    have hel : e.location = wc.location := by
      have := List.find?_some hf
      simpa using this
    by_cases hex : 1800 < now - e.cached_at
    · rw [store_absent (gcw_find_expired hf hex)]
      dsimp only
      refine ⟨?_, rfl, rfl, rfl, rfl, rfl, rfl, Or.inr rfl⟩
      rw [List.find?_append]
      rw [List.find?_eq_none.mpr ?_]
      · simp
      · intro w hw
        simp only [beq_iff_eq]
        exact eraseFirstLoc_no_loc wc.location hinv w hw
    · rw [store_found (gcw_find_fresh hf (by omega))]
      dsimp only
      refine ⟨?_, hel, rfl, rfl, rfl, rfl, rfl, Or.inl rfl⟩
      exact overwriteFirstLoc_find hf (by simpa [overwritten] using hel)

/-- Every row of the table after a store was already there or is keyed by
the stored location. -/
theorem store_mem {s : List WeatherCache} {wc : WeatherCache} {now : Int}
    {w : WeatherCache} (hw : w ∈ (store_weather_cache s wc now).2) :
    w ∈ s ∨ w.location = wc.location := by
  cases hf : s.find? (fun x => x.location == wc.location) with
  | none =>
    rw [store_absent (gcw_find_none hf)] at hw
    dsimp only at hw
    rcases List.mem_append.mp hw with h | h
    · exact Or.inl h
    · right; simp at h; rw [h]
  | some e =>
    have hel : e.location = wc.location := by
      have := List.find?_some hf
      simpa using this
    by_cases hex : 1800 < now - e.cached_at
    · rw [store_absent (gcw_find_expired hf hex)] at hw
      dsimp only at hw
      rcases List.mem_append.mp hw with h | h
      · exact Or.inl ((eraseFirstLoc_sublist s wc.location).mem h)
      · right; simp at h; rw [h]
    · rw [store_found (gcw_find_fresh hf (by omega))] at hw
      dsimp only at hw
      rcases overwriteFirstLoc_mem hw with h | h
      · exact Or.inl h
      · right; rw [h]; exact hel

theorem store_pairwise (s : List WeatherCache) (wc : WeatherCache) (now : Int)
    (hinv : AtMostOne s) : AtMostOne (store_weather_cache s wc now).2 := by
  cases hf : s.find? (fun w => w.location == wc.location) with
  | none =>
    rw [store_absent (gcw_find_none hf)]
    dsimp only
    refine List.pairwise_append.mpr ⟨hinv, List.pairwise_singleton .. , ?_⟩
    intro a ha b hb
    simp at hb
    rw [hb]
    intro hal
    exact List.find?_eq_none.mp hf a ha (by simp [hal])
  | some e =>
    have hel : e.location = wc.location := by
      have := List.find?_some hf
      simpa using this
    by_cases hex : 1800 < now - e.cached_at
    · rw [store_absent (gcw_find_expired hf hex)]
      dsimp only
      refine List.pairwise_append.mpr
        ⟨hinv.sublist (eraseFirstLoc_sublist s wc.location),
         List.pairwise_singleton .., ?_⟩
      intro a ha b hb
      simp at hb
      rw [hb]
      exact eraseFirstLoc_no_loc wc.location hinv a ha
    · rw [store_found (gcw_find_fresh hf (by omega))]
      dsimp only
      exact overwriteFirstLoc_pairwise hinv (by simp [overwritten, hel])

theorem clear_sublist (s : List WeatherCache) (l : String) :
    List.Sublist (clear_location_cache s l).2 s := by
  unfold clear_location_cache
  split
  · exact List.Sublist.refl s
  · exact eraseFirstLoc_sublist s l

theorem cleanup_eq (s : List WeatherCache) (now : Int) :
    cleanup_expired_cache s now =
      (s.countP (fun w => is_expired now w),
       s.filter (fun w => !is_expired now w)) := by
  induction s with
  | nil => rfl
  | cons x xs ih =>
    unfold cleanup_expired_cache
    rw [ih]
    cases hx : is_expired now x with
    | true => simp [List.countP_cons, List.filter_cons, hx]
    | false => simp [List.countP_cons, List.filter_cons, hx]

/-- Range of the mock generator's numeric fields, for any hash
function. -/
theorem mock_bounds (hashFn : String → Int) (location : String) (now : Int) :
    15 ≤ (generate_mock_weather hashFn location now).temperature ∧
    (generate_mock_weather hashFn location now).temperature < 40 ∧
    5 ≤ (generate_mock_weather hashFn location now).wind_speed ∧
    (generate_mock_weather hashFn location now).wind_speed < 25 := by
  simp only [generate_mock_weather]
  have h25a : (0 : Int) ≤ hashFn (pyLower location) % 100 % 25 :=
    Int.emod_nonneg _ (by norm_num)
  have h25b : hashFn (pyLower location) % 100 % 25 < 25 :=
    Int.emod_lt_of_pos _ (by norm_num)
  have h20a : (0 : Int) ≤ hashFn (pyLower location) % 100 % 20 :=
    Int.emod_nonneg _ (by norm_num)
  have h20b : hashFn (pyLower location) % 100 % 20 < 20 :=
    Int.emod_lt_of_pos _ (by norm_num)
  refine ⟨?_, ?_, ?_, ?_⟩
  · exact_mod_cast (by omega : (15 : Int) ≤ 15 + hashFn (pyLower location) % 100 % 25)
  · exact_mod_cast (by omega : (15 : Int) + hashFn (pyLower location) % 100 % 25 < 40)
  · exact_mod_cast (by omega : (5 : Int) ≤ 5 + hashFn (pyLower location) % 100 % 20)
  · exact_mod_cast (by omega : (5 : Int) + hashFn (pyLower location) % 100 % 20 < 25)

/-- Cache-hit path of `get_weather_for_location`. -/
theorem gwfl_hit {hashFn : String → Int} {s : List WeatherCache}
    {location : String} {fetch : FetchOutcome} {now : Int} {c : WeatherCache}
    {s₁ : List WeatherCache} (hl : ¬pyStrip location = "")
    (hg : get_cached_weather s (pyStrip location) now = (some c, s₁)) :
    get_weather_for_location hashFn s location fetch now =
      .ok (response_of_cache c, s₁, false) := by
  unfold get_weather_for_location
  rw [if_neg hl]
  simp only [hg]

/-- Cache-miss path of `get_weather_for_location`. -/
theorem gwfl_miss {hashFn : String → Int} {s : List WeatherCache}
    {location : String} {fetch : FetchOutcome} {now : Int}
    {s₁ : List WeatherCache} (hl : ¬pyStrip location = "")
    (hg : get_cached_weather s (pyStrip location) now = (none, s₁)) :
    get_weather_for_location hashFn s location fetch now =
      .ok (resolve_weather hashFn (pyStrip location) fetch now,
           (store_weather_cache s₁
             (snapshot_of (resolve_weather hashFn (pyStrip location) fetch now) now)
             now).2,
           true) := by
  unfold get_weather_for_location
  rw [if_neg hl]
  simp only [hg]

theorem update_trip_found {store : List Trip} {trip_id : Nat} {t : Trip}
    {updates : TripUpdate} {now : Int}
    (hfind : store.find? (fun x => x.id == trip_id) = some t) :
    update_trip store trip_id updates now =
      .ok (replaceTripById store trip_id
             { applyUpdates t updates with updated_at := now },
           { applyUpdates t updates with updated_at := now }) := by
  unfold update_trip
  rw [hfind]

/-! ## The claims -/

/-- C1: the claim says `updateTrip` re-validates the merged dates and
fails with InvalidInput when the merged end date is not after the merged
start date.  The code does not: on the stored trip (start 5, end 10), an
update supplying only `end_date := 1` passes the payload validator (which
checks only when both dates are supplied), is persisted, and the endpoint
returns the merged record with end date before start date — the stored
trip has changed. -/
theorem claim_C1 :
    ∃ store' merged,
      update_trip_endpoint [sampleTrip] 1 { end_date := some 1 } 100 =
        .ok (store', merged) ∧
      merged.end_date < merged.start_date ∧
      store' ≠ [sampleTrip] := by
  refine ⟨_, _, rfl, ?_, ?_⟩ <;> decide

/-- C2: the claim says the mock generator's output is reproducible across
runs/processes because it uses a stable hash.  The code derives it from
Python's built-in `hash`, which varies per process: under two process
hash functions the temperature for "Tokyo" differs, so cross-process
reproducibility fails. -/
theorem claim_C2 :
    (generate_mock_weather (fun _ => 0) "Tokyo" 0).temperature ≠
      (generate_mock_weather (fun _ => 1) "Tokyo" 0).temperature := by
  decide

/-- C5: `getValid` returns the stored row exactly when one exists for the
location and is at most 1800 seconds old; an expired row is deleted as a
side effect with absent returned; an absent location returns absent with
the table unchanged. -/
theorem claim_C5 (s : List WeatherCache) (location : String) (now : Int) :
    (∀ e, s.find? (fun w => w.location == location) = some e →
      (now - e.cached_at ≤ 1800 →
        get_cached_weather s location now = (some e, s)) ∧
      (1800 < now - e.cached_at →
        get_cached_weather s location now = (none, eraseFirstLoc s location))) ∧
    (s.find? (fun w => w.location == location) = none →
      get_cached_weather s location now = (none, s)) :=
  ⟨fun _ hf => ⟨fun h => gcw_find_fresh hf h, fun h => gcw_find_expired hf h⟩,
   fun hf => gcw_find_none hf⟩

/-- Witness for C5: a row cached at time 1000 read at time 2000 is
returned unchanged; the same row read at time 3000 (age 2000 s > 1800 s)
is deleted and reported absent. -/
theorem claim_C5_witness :
    get_cached_weather [parisFresh] "Paris" 2000 = (some parisFresh, [parisFresh]) ∧
    get_cached_weather [parisFresh] "Paris" 3000 = (none, []) :=
  ⟨((claim_C5 [parisFresh] "Paris" 2000).1 parisFresh rfl).1 (by decide),
   ((claim_C5 [parisFresh] "Paris" 3000).1 parisFresh rfl).2 (by decide)⟩

/-- C9: an update supplying only `notes` leaves id, name, destination,
dates and creation time unchanged, sets notes to the supplied value, and
refreshes `updated_at` to the current time. -/
theorem claim_C9 (store : List Trip) (trip_id : Nat) (t : Trip)
    (v : Option String) (now : Int)
    (hfind : store.find? (fun x => x.id == trip_id) = some t)
    (hv : ∀ s, v = some s → s.length ≤ 500) :
    update_trip_endpoint store trip_id { notes := some v } now =
      .ok (replaceTripById store trip_id { t with notes := v, updated_at := now },
           { t with notes := v, updated_at := now }) := by
  have hvalid : tripUpdateValid { notes := some v } = true := by
    cases v with
    | none => rfl
    | some s => simp [tripUpdateValid, hv s rfl]
  unfold update_trip_endpoint
  rw [if_pos hvalid, update_trip_found hfind]
  have happ : applyUpdates t { notes := some v } = { t with notes := v } := by
    simp [applyUpdates]
  rw [happ]

/-- Witness for C9: updating only the notes of the sample trip. -/
theorem claim_C9_witness :
    update_trip_endpoint [sampleTrip] 1 { notes := some (some "pack light") } 100 =
      .ok ([{ sampleTrip with notes := some "pack light", updated_at := 100 }],
           { sampleTrip with notes := some "pack light", updated_at := 100 }) :=
  claim_C9 [sampleTrip] 1 sampleTrip (some "pack light") 100 rfl
    (fun s hs => by cases hs; decide)

/-- C10: the payload mapping of a successful fetch takes temperature and
humidity directly from the payload's metric values, title-cases the first
weather-condition entry's description, and sets wind speed to the m/s
value multiplied by 3.6 and rounded to one decimal place. -/
theorem claim_C10 (req : WeatherAPIRequest) (now : Int) (resp : WeatherResponse)
    (h : fetch_map req now = .ok resp) :
    ∃ description temp humidity,
      req.weather_descriptions.head? = some description ∧
      req.main_temp = some temp ∧
      req.main_humidity = some humidity ∧
      resp.location = req.name ∧
      resp.temperature = temp ∧
      resp.humidity = humidity ∧
      resp.condition = pyTitle description ∧
      resp.wind_speed =
        (roundHalfEven (req.wind_speed.getD 0 * 3.6 * 10) : ℚ) / 10 ∧
      resp.updated_at = now := by
  unfold fetch_map at h
  cases ht : req.main_temp with
  | none => rw [ht] at h; simp at h
  | some temp =>
    cases hh : req.main_humidity with
    | none => rw [ht, hh] at h; simp at h
    | some humidity =>
      cases hd : req.weather_descriptions.head? with
      | none => rw [ht, hh, hd] at h; simp at h
      | some description =>
        rw [ht, hh, hd] at h
        simp only [Except.ok.injEq] at h
        subst h
        exact ⟨description, temp, humidity, rfl, rfl, rfl, rfl, rfl, rfl, rfl,
          rfl, rfl⟩

/-- Witness for C10: the sample payload (2.5 m/s wind, "clear sky") maps
to 9 km/h and "Clear Sky". -/
theorem claim_C10_witness :
    ∃ description temp humidity,
      sampleReq.weather_descriptions.head? = some description ∧
      sampleReq.main_temp = some temp ∧
      sampleReq.main_humidity = some humidity ∧
      sampleResp.location = sampleReq.name ∧
      sampleResp.temperature = temp ∧
      sampleResp.humidity = humidity ∧
      sampleResp.condition = pyTitle description ∧
      sampleResp.wind_speed =
        (roundHalfEven (sampleReq.wind_speed.getD 0 * 3.6 * 10) : ℚ) / 10 ∧
      sampleResp.updated_at = 50 :=
  claim_C10 sampleReq 50 sampleResp (by
    norm_num [fetch_map, to_kmh, roundHalfEven, sampleReq, sampleResp]
    decide)

/-- C3: for a non-blank location, `getWeather` with a failing provider
fetch (any exception: missing credential, timeout, 404, 401, malformed
payload) never surfaces the error — it returns a snapshot; and whenever
the miss/fallback path ran, the returned temperature lies in [15, 40) and
the wind speed in [5, 25). -/
theorem claim_C3 (hashFn : String → Int) (s : List WeatherCache)
    (location : String) (now : Int) (hl : ¬pyStrip location = "") :
    (∃ r s' m, get_weather_for_location hashFn s location .failure now =
      .ok (r, s', m)) ∧
    ∀ r s', get_weather_for_location hashFn s location .failure now =
        .ok (r, s', true) →
      15 ≤ r.temperature ∧ r.temperature < 40 ∧
      5 ≤ r.wind_speed ∧ r.wind_speed < 25 := by
  constructor
  · rcases hgp : get_cached_weather s (pyStrip location) now with ⟨fst, s₁⟩
    cases fst with
    | some c => exact ⟨_, _, _, gwfl_hit hl hgp⟩
    | none => exact ⟨_, _, _, gwfl_miss hl hgp⟩
  · intro r s' hok
    rcases hgp : get_cached_weather s (pyStrip location) now with ⟨fst, s₁⟩
    cases fst with
    | some c =>
      rw [gwfl_hit hl hgp] at hok
      simp at hok
    | none =>
      rw [gwfl_miss hl hgp] at hok
      simp only [Except.ok.injEq, Prod.mk.injEq] at hok
      obtain ⟨hr, -⟩ := hok
      rw [← hr]
      simpa [resolve_weather] using mock_bounds hashFn (pyStrip location) now

/-- Witness for C3: with an empty cache and a failing fetch, the call for
"Paris" succeeds and the miss-path output is range-bounded. -/
theorem claim_C3_witness :
    (∃ r s' m, get_weather_for_location (fun _ => 3) [] "Paris" .failure 0 =
      .ok (r, s', m)) ∧
    ∀ r s', get_weather_for_location (fun _ => 3) [] "Paris" .failure 0 =
        .ok (r, s', true) →
      15 ≤ r.temperature ∧ r.temperature < 40 ∧
      5 ≤ r.wind_speed ∧ r.wind_speed < 25 :=
  claim_C3 (fun _ => 3) [] "Paris" 0 (by decide)

/-- C7: starting from a table with at most one row per location, each of
the four cache operations preserves that invariant; and when a row for the
stored location survives the pre-read, `store_weather_cache` overwrites it
in place, leaving the number of rows unchanged (no second row is ever
inserted). -/
theorem claim_C7 (s : List WeatherCache) (location : String)
    (wc : WeatherCache) (now : Int) (hinv : AtMostOne s) :
    AtMostOne (get_cached_weather s location now).2 ∧
    AtMostOne (store_weather_cache s wc now).2 ∧
    AtMostOne (clear_location_cache s location).2 ∧
    AtMostOne (cleanup_expired_cache s now).2 ∧
    ∀ e, s.find? (fun w => w.location == wc.location) = some e →
      now - e.cached_at ≤ 1800 →
      (store_weather_cache s wc now).2.length = s.length := by
  refine ⟨hinv.sublist (gcw_sublist s location now),
          store_pairwise s wc now hinv,
          hinv.sublist (clear_sublist s location),
          ?_, ?_⟩
  · rw [cleanup_eq]
    exact hinv.sublist (List.filter_sublist s)
  · intro e hf hfr
    rw [store_found (gcw_find_fresh hf hfr)]
    exact overwriteFirstLoc_length s wc.location _

/-- Witness for C7: a two-row table keeps the invariant under a store that
overwrites the fresh "Paris" row at time 2000, and the row count stays
2. -/
theorem claim_C7_witness :
    AtMostOne (get_cached_weather [parisFresh, tokyoStale] "Paris" 2000).2 ∧
    AtMostOne (store_weather_cache [parisFresh, tokyoStale] parisMockRow 2000).2 ∧
    AtMostOne (clear_location_cache [parisFresh, tokyoStale] "Paris").2 ∧
    AtMostOne (cleanup_expired_cache [parisFresh, tokyoStale] 2000).2 ∧
    ∀ e, [parisFresh, tokyoStale].find?
        (fun w => w.location == parisMockRow.location) = some e →
      2000 - e.cached_at ≤ 1800 →
      (store_weather_cache [parisFresh, tokyoStale] parisMockRow 2000).2.length =
        [parisFresh, tokyoStale].length :=
  claim_C7 [parisFresh, tokyoStale] "Paris" parisMockRow 2000
    (by unfold AtMostOne; decide)

/-- C8: the expiry sweep deletes exactly the rows older than 1800 seconds,
returns how many it deleted, and every non-expired row survives unchanged
and is still returned by a subsequent `getValid`. -/
theorem claim_C8 (s : List WeatherCache) (now : Int) (hinv : AtMostOne s) :
    (cleanup_expired_cache s now).1 =
      s.countP (fun w => decide (1800 < now - w.cached_at)) ∧
    (cleanup_expired_cache s now).2 =
      s.filter (fun w => !decide (1800 < now - w.cached_at)) ∧
    ∀ e ∈ s, now - e.cached_at ≤ 1800 →
      get_cached_weather (cleanup_expired_cache s now).2 e.location now =
        (some e, (cleanup_expired_cache s now).2) := by
  have h2 : (cleanup_expired_cache s now).2 =
      s.filter (fun w => !is_expired now w) := by rw [cleanup_eq]
  refine ⟨by rw [cleanup_eq]; rfl, by rw [cleanup_eq]; rfl, ?_⟩
  intro e he hfr
  have hmem : e ∈ (cleanup_expired_cache s now).2 := by
    rw [h2]
    refine List.mem_filter.mpr ⟨he, ?_⟩
    simp [is_expired]
    omega
  have hsub : AtMostOne (cleanup_expired_cache s now).2 := by
    rw [h2]
    exact hinv.sublist (List.filter_sublist s)
  exact gcw_find_fresh (find_loc_of_mem hsub hmem) hfr

/-- Witness for C8: sweeping [fresh Paris row, stale Tokyo row] at time
2000 deletes exactly the Tokyo row (count 1) and `getValid` still returns
the Paris row afterwards. -/
theorem claim_C8_witness :
    (cleanup_expired_cache [parisFresh, tokyoStale] 2000).1 =
      [parisFresh, tokyoStale].countP
        (fun w => decide (1800 < 2000 - w.cached_at)) ∧
    (cleanup_expired_cache [parisFresh, tokyoStale] 2000).2 =
      [parisFresh, tokyoStale].filter
        (fun w => !decide (1800 < 2000 - w.cached_at)) ∧
    ∀ e ∈ [parisFresh, tokyoStale], 2000 - e.cached_at ≤ 1800 →
      get_cached_weather (cleanup_expired_cache [parisFresh, tokyoStale] 2000).2
          e.location 2000 =
        (some e, (cleanup_expired_cache [parisFresh, tokyoStale] 2000).2) :=
  claim_C8 [parisFresh, tokyoStale] 2000 (by unfold AtMostOne; decide)

/-- C4: if a first `getWeather` call for a location ran the miss path and
wrote a snapshot keyed by the requested (stripped) location, then a second
call for the same location while that entry is at most 1800 seconds old is
a pure cache hit: it returns exactly the first call's response (same
temperature, condition, humidity, wind speed), regardless of the provider
outcome supplied to it (no provider call), and leaves the table exactly as
the first call left it (no cache write). -/
theorem claim_C4 (hashFn : String → Int) (s₀ : List WeatherCache)
    (location : String) (fetch₁ fetch₂ : FetchOutcome) (t₁ t₂ : Int)
    (r₁ : WeatherResponse) (s₁ : List WeatherCache)
    (hinv : AtMostOne s₀)
    (hcall₁ : get_weather_for_location hashFn s₀ location fetch₁ t₁ =
      .ok (r₁, s₁, true))
    (hkey : r₁.location = pyStrip location)
    (hage : t₂ - t₁ ≤ 1800) :
    get_weather_for_location hashFn s₁ location fetch₂ t₂ =
      .ok (r₁, s₁, false) := by
  have hl : ¬pyStrip location = "" := by
    intro h
    unfold get_weather_for_location at hcall₁
    rw [if_pos h] at hcall₁
    exact absurd hcall₁ (by simp)
  rcases hgp : get_cached_weather s₀ (pyStrip location) t₁ with ⟨fst, s₁'⟩
  cases fst with
  | some c =>
    rw [gwfl_hit hl hgp] at hcall₁
    simp at hcall₁
  | none =>
    rw [gwfl_miss hl hgp] at hcall₁
    simp only [Except.ok.injEq, Prod.mk.injEq, and_true] at hcall₁
    obtain ⟨hr, hs⟩ := hcall₁
    rw [hr] at hs
    have hinv₁ : AtMostOne s₁' := by
      have hsnd : s₁' = (get_cached_weather s₀ (pyStrip location) t₁).2 := by
        rw [hgp]
      rw [hsnd]
      exact hinv.sublist (gcw_sublist s₀ (pyStrip location) t₁)
    obtain ⟨hfind, hloc, htemp, hcond, hhum, hwind, hupd, hcached⟩ :=
      store_find_self s₁' (snapshot_of r₁ t₁) t₁ hinv₁
    rw [hs] at hfind
    have hca : (store_weather_cache s₁' (snapshot_of r₁ t₁) t₁).1.cached_at = t₁ := by
      rcases hcached with h | h
      · exact h
      · rw [h]; rfl
    have hkey' : (snapshot_of r₁ t₁).location = pyStrip location := hkey
    rw [hkey'] at hfind
    have hg₂ : get_cached_weather s₁ (pyStrip location) t₂ =
        (some (store_weather_cache s₁' (snapshot_of r₁ t₁) t₁).1, s₁) :=
      gcw_find_fresh hfind (by rw [hca]; exact hage)
    rw [gwfl_hit hl hg₂]
    have hresp : response_of_cache (store_weather_cache s₁'
        (snapshot_of r₁ t₁) t₁).1 = r₁ :=
      WeatherResponse.ext hloc htemp hcond hhum hwind hupd
    rw [hresp]

/-- Witness for C4: a first call at time 0 (empty cache, failing fetch)
writes the mock "Paris" row; a second call at time 1000 returns the same
response with no state change and the miss flag off. -/
theorem claim_C4_witness :
    get_weather_for_location (fun _ => 3) [parisMockRow] "Paris" .failure 1000 =
      .ok (parisMockResp, [parisMockRow], false) :=
  claim_C4 (fun _ => 3) [] "Paris" .failure .failure 0 1000 parisMockResp
    [parisMockRow] List.Pairwise.nil rfl (by decide) (by decide)

/-- C6: on a cache miss with a successful provider fetch, the written
cache row is keyed by the provider's reported location name, not the
requested (stripped) location string; when the two differ, the requested
location still has no row afterwards, so a second call for it — at any
later time, in particular within 30 minutes — runs the miss path (provider
attempted) again. -/
theorem claim_C6 (hashFn : String → Int) (s : List WeatherCache)
    (location : String) (resp : WeatherResponse) (now : Int)
    (hinv : AtMostOne s) (hl : ¬pyStrip location = "")
    (hmiss : (get_cached_weather s (pyStrip location) now).1 = none)
    (hname : resp.location ≠ pyStrip location) :
    ∃ s₁, get_weather_for_location hashFn s location (.success resp) now =
        .ok (resp, s₁, true) ∧
      (∃ e, s₁.find? (fun w => w.location == resp.location) = some e ∧
        e.temperature = resp.temperature ∧ e.condition = resp.condition ∧
        e.humidity = resp.humidity ∧ e.wind_speed = resp.wind_speed) ∧
      s₁.find? (fun w => w.location == pyStrip location) = none ∧
      ∀ fetch₂ t₂, ∃ r₂ s₂,
        get_weather_for_location hashFn s₁ location fetch₂ t₂ =
          .ok (r₂, s₂, true) := by
  have hg : get_cached_weather s (pyStrip location) now =
      (none, (get_cached_weather s (pyStrip location) now).2) := by
    rw [← hmiss]
  have hinv₁ : AtMostOne (get_cached_weather s (pyStrip location) now).2 :=
    hinv.sublist (gcw_sublist s (pyStrip location) now)
  obtain ⟨hfind, hloc, htemp, hcond, hhum, hwind, -, -⟩ :=
    store_find_self (get_cached_weather s (pyStrip location) now).2
      (snapshot_of resp now) now hinv₁
  have hnone : (store_weather_cache
      (get_cached_weather s (pyStrip location) now).2
      (snapshot_of resp now) now).2.find?
        (fun w => w.location == pyStrip location) = none := by
    apply List.find?_eq_none.mpr
    intro w hw
    simp only [beq_iff_eq]
    rcases store_mem hw with h | h
    · exact gcw_none_no_loc hinv hg w h
    · rw [h]; exact hname
  refine ⟨_, ?_, ⟨_, hfind, htemp, hcond, hhum, hwind⟩, hnone, ?_⟩
  · rw [gwfl_miss hl hg]
    rfl
  · intro fetch₂ t₂
    exact ⟨_, _, gwfl_miss hl (gcw_find_none hnone)⟩

/-- Witness for C6: a provider response named "Paris, France" for the
request "Paris" leaves "Paris" uncached, and the next "Paris" call misses
again. -/
theorem claim_C6_witness :
    ∃ s₁, get_weather_for_location (fun _ => 3) [] "Paris" (.success provResp) 0 =
        .ok (provResp, s₁, true) ∧
      (∃ e, s₁.find? (fun w => w.location == provResp.location) = some e ∧
        e.temperature = provResp.temperature ∧ e.condition = provResp.condition ∧
        e.humidity = provResp.humidity ∧ e.wind_speed = provResp.wind_speed) ∧
      s₁.find? (fun w => w.location == pyStrip "Paris") = none ∧
      ∀ fetch₂ t₂, ∃ r₂ s₂,
        get_weather_for_location (fun _ => 3) s₁ "Paris" fetch₂ t₂ =
          .ok (r₂, s₂, true) :=
  claim_C6 (fun _ => 3) [] "Paris" provResp 0 List.Pairwise.nil (by decide) rfl
    (by decide)

end TripApp
